import Mathlib

/-!
# Verification of the investment-proposal allocation engine

Shallow embedding of the JavaScript modules `src/modules/allocation.js`,
`src/modules/risk.js` and `src/modules/products.js` of the
investment-proposal-api repository.  JavaScript numbers are modelled as
rationals (`ℚ`), `Math.round` as `jsRound` (floor of `x + 1/2`, JavaScript's
round-half-toward-positive-infinity), and JavaScript objects returned by the
allocation engine as a list of (key, value) entries plus the reserved `Total`
field, or an `error` sentinel.
-/

namespace InvestmentProposal

/-- JavaScript `Math.round`: rounds half toward positive infinity. -/
def jsRound (x : ℚ) : ℤ := ⌊x + 1/2⌋

/-- Result object of the allocation engine: either an `{error: msg}` sentinel
(which carries no `Total` key), or an object of vehicle entries (key, amount in
crores) together with the `Total` field. -/
inductive AllocResult where
  | err (msg : String)
  | alloc (entries : List (String × ℚ)) (total : ℚ)
deriving DecidableEq, Repr

/-- The vehicle entries of an allocation result (the keys other than `Total`
and `error`); an error sentinel has none. -/
def allocEntries : AllocResult → List (String × ℚ)
  | .err _ => []
  | .alloc entries _ => entries

/-- Whether the result is the `{error: ...}` sentinel. -/
def isError : AllocResult → Bool
  | .err _ => true
  | .alloc _ _ => false

/-- Sum of the values of an entry list. -/
def sumVals (entries : List (String × ℚ)) : ℚ := (entries.map Prod.snd).sum

/-- The function `calculateAllocation(strategy, portfolioSize)` from
`src/modules/allocation.js` lines 475–587.  All monetary values are in crores.
The default `{error: "Invalid strategy or portfolio size"}` object is returned
whenever no branch overwrites it. -/
def calculateAllocation (strategy : String) (portfolioSize : ℚ) : AllocResult :=
  -- Special case for small portfolios (1 cr or less)
  if portfolioSize ≤ 1 then
    if strategy = "Ultra Aggressive" then
      .alloc [("Equity Mutual Funds", portfolioSize)] portfolioSize
    else if strategy = "Aggressive" then
      .alloc [("Equity Mutual Funds", portfolioSize * (75/100)),
              ("Debt Mutual Funds", portfolioSize * (15/100)),
              ("Direct Debt", portfolioSize * (10/100))] portfolioSize
    else if strategy = "Moderate" then
      .alloc [("Equity Mutual Funds", portfolioSize * (60/100)),
              ("Debt Mutual Funds", portfolioSize * (20/100)),
              ("Direct Debt", portfolioSize * (20/100))] portfolioSize
    else if strategy = "Conservative" then
      .alloc [("Equity Mutual Funds", portfolioSize * (40/100)),
              ("Debt Mutual Funds", portfolioSize * (30/100)),
              ("Direct Debt", portfolioSize * (30/100))] portfolioSize
    else .err "Invalid strategy or portfolio size"
  -- Special case for 1-2 cr in Conservative
  else if strategy = "Conservative" ∧ portfolioSize ≤ 2 then
    .alloc [("Equity Mutual Funds", portfolioSize * (40/100)),
            ("Debt Mutual Funds", portfolioSize * (30/100)),
            ("Direct Debt", portfolioSize * (30/100))] portfolioSize
  -- Standard allocations for larger portfolios
  else if strategy = "Ultra Aggressive" then
    .alloc [("AIF", portfolioSize * (60/100)),
            ("PMS", portfolioSize * (25/100)),
            ("Mutual Funds", portfolioSize * (15/100))] portfolioSize
  else if strategy = "Aggressive" then
    if portfolioSize ≤ 2 then
      .alloc [("Equity PMS", 1/2), ("Equity Mutual Funds", 1),
              ("Debt Mutual Funds", 25/100), ("Direct Debt", 25/100)] portfolioSize
    else if portfolioSize ≤ 5 then
      .alloc [("Equity AIF", 2), ("Equity PMS", 1), ("Equity Mutual Funds", 75/100),
              ("Debt Mutual Funds", 1/2), ("Direct Debt", 75/100)] portfolioSize
    else
      .alloc [("Equity AIF", portfolioSize * (40/100)),
              ("Equity PMS", portfolioSize * (20/100)),
              ("Equity Mutual Funds", portfolioSize * (15/100)),
              ("Debt AIF", portfolioSize * (10/100)),
              ("Debt Mutual Funds", portfolioSize * (5/100)),
              ("Direct Debt", portfolioSize * (10/100))] portfolioSize
  else if strategy = "Moderate" then
    .alloc [("Equity PMS", portfolioSize * (25/100)),
            ("Equity Mutual Funds", portfolioSize * (35/100)),
            ("Debt Mutual Funds", portfolioSize * (20/100)),
            ("Direct Debt", portfolioSize * (20/100))] portfolioSize
  else if strategy = "Conservative" then
    .alloc [("Equity PMS", portfolioSize * (10/100)),
            ("Equity Mutual Funds", portfolioSize * (30/100)),
            ("Debt Mutual Funds", portfolioSize * (30/100)),
            ("Direct Debt", portfolioSize * (30/100))] portfolioSize
  else .err "Invalid strategy or portfolio size"

/-- The `ultraAggressiveLookup` table, allocation.js lines 600–607. -/
def ultraAggressiveLookup (k : ℕ) : Option (List (String × ℚ)) :=
  match k with
  | 2 => some [("AIF", 12/10), ("PMS", 1/2), ("Mutual Funds", 3/10)]
  | 5 => some [("AIF", 3), ("PMS", 125/100), ("Mutual Funds", 75/100)]
  | 10 => some [("AIF", 6), ("PMS", 25/10), ("Mutual Funds", 15/10)]
  | 15 => some [("AIF", 9), ("PMS", 375/100), ("Mutual Funds", 225/100)]
  | 20 => some [("AIF", 12), ("PMS", 5), ("Mutual Funds", 3)]
  | 25 => some [("AIF", 15), ("PMS", 625/100), ("Mutual Funds", 375/100)]
  | _ => none

/-- The `aggressiveLookup` table, allocation.js lines 610–617. -/
def aggressiveLookup (k : ℕ) : Option (List (String × ℚ)) :=
  match k with
  | 2 => some [("Equity AIF", 0), ("Equity PMS", 1/2), ("Equity Mutual Funds", 1),
               ("Debt AIF", 0), ("Debt Mutual Funds", 25/100), ("Direct Debt", 25/100)]
  | 5 => some [("Equity AIF", 2), ("Equity PMS", 1), ("Equity Mutual Funds", 75/100),
               ("Debt AIF", 0), ("Debt Mutual Funds", 1/2), ("Direct Debt", 75/100)]
  | 10 => some [("Equity AIF", 4), ("Equity PMS", 2), ("Equity Mutual Funds", 15/10),
                ("Debt AIF", 1), ("Debt Mutual Funds", 1/2), ("Direct Debt", 1)]
  | 15 => some [("Equity AIF", 6), ("Equity PMS", 3), ("Equity Mutual Funds", 225/100),
                ("Debt AIF", 15/10), ("Debt Mutual Funds", 75/100), ("Direct Debt", 15/10)]
  | 20 => some [("Equity AIF", 8), ("Equity PMS", 4), ("Equity Mutual Funds", 3),
                ("Debt AIF", 2), ("Debt Mutual Funds", 1), ("Direct Debt", 2)]
  | 25 => some [("Equity AIF", 10), ("Equity PMS", 5), ("Equity Mutual Funds", 375/100),
                ("Debt AIF", 25/10), ("Debt Mutual Funds", 125/100), ("Direct Debt", 25/10)]
  | _ => none

/-- The `moderateLookup` table, allocation.js lines 620–627. -/
def moderateLookup (k : ℕ) : Option (List (String × ℚ)) :=
  match k with
  | 2 => some [("Equity AIF", 0), ("Equity PMS", 1/2), ("Equity Mutual Funds", 7/10),
               ("Debt AIF", 0), ("Debt Mutual Funds", 4/10), ("Direct Debt", 4/10)]
  | 5 => some [("Equity AIF", 0), ("Equity PMS", 125/100), ("Equity Mutual Funds", 175/100),
               ("Debt AIF", 0), ("Debt Mutual Funds", 1), ("Direct Debt", 1)]
  | 10 => some [("Equity AIF", 0), ("Equity PMS", 25/10), ("Equity Mutual Funds", 35/10),
                ("Debt AIF", 0), ("Debt Mutual Funds", 2), ("Direct Debt", 2)]
  | 15 => some [("Equity AIF", 0), ("Equity PMS", 375/100), ("Equity Mutual Funds", 525/100),
                ("Debt AIF", 0), ("Debt Mutual Funds", 3), ("Direct Debt", 3)]
  | 20 => some [("Equity AIF", 0), ("Equity PMS", 5), ("Equity Mutual Funds", 7),
                ("Debt AIF", 0), ("Debt Mutual Funds", 4), ("Direct Debt", 4)]
  | 25 => some [("Equity AIF", 0), ("Equity PMS", 625/100), ("Equity Mutual Funds", 875/100),
                ("Debt AIF", 0), ("Debt Mutual Funds", 5), ("Direct Debt", 5)]
  | _ => none

/-- The `conservativeLookup` table, allocation.js lines 630–637. -/
def conservativeLookup (k : ℕ) : Option (List (String × ℚ)) :=
  match k with
  | 2 => some [("Equity AIF", 0), ("Equity PMS", 0), ("Equity Mutual Funds", 8/10),
               ("Debt AIF", 0), ("Debt Mutual Funds", 6/10), ("Direct Debt", 6/10)]
  | 5 => some [("Equity AIF", 0), ("Equity PMS", 1/2), ("Equity Mutual Funds", 15/10),
               ("Debt AIF", 0), ("Debt Mutual Funds", 15/10), ("Direct Debt", 15/10)]
  | 10 => some [("Equity AIF", 0), ("Equity PMS", 1), ("Equity Mutual Funds", 3),
                ("Debt AIF", 0), ("Debt Mutual Funds", 3), ("Direct Debt", 3)]
  | 15 => some [("Equity AIF", 0), ("Equity PMS", 15/10), ("Equity Mutual Funds", 45/10),
                ("Debt AIF", 0), ("Debt Mutual Funds", 45/10), ("Direct Debt", 45/10)]
  | 20 => some [("Equity AIF", 0), ("Equity PMS", 2), ("Equity Mutual Funds", 6),
                ("Debt AIF", 0), ("Debt Mutual Funds", 6), ("Direct Debt", 6)]
  | 25 => some [("Equity AIF", 0), ("Equity PMS", 25/10), ("Equity Mutual Funds", 75/10),
                ("Debt AIF", 0), ("Debt Mutual Funds", 75/10), ("Direct Debt", 75/10)]
  | _ => none

/-- The `ranges` scan of allocation.js lines 654–683: the smallest checkpoint
`≥ portfolioSize`, with sizes above 25 crore using the 25-crore row. -/
def findRangeKey (portfolioSize : ℚ) : ℕ :=
  if portfolioSize ≤ 2 then 2
  else if portfolioSize ≤ 5 then 5
  else if portfolioSize ≤ 10 then 10
  else if portfolioSize ≤ 15 then 15
  else if portfolioSize ≤ 20 then 20
  else if portfolioSize ≤ 25 then 25
  else 25

/-- The function `getPredefinedAllocation(strategy, portfolioSize)` from allocation.js
lines 594–721: strategy dispatch to a lookup table (unknown strategy returns
the `{error: "Invalid strategy"}` sentinel before anything else), small
portfolio and Conservative ≤ 2 cr special cases delegated to
`calculateAllocation`, the fixed-value Aggressive 2–5 cr band, proportional
scaling of the checkpoint row by `portfolioSize / rangeKey` with
`Total = portfolioSize`, and the calculated-allocation fallback when the
table has no row for the range key. -/
def getPredefinedAllocation (strategy : String) (portfolioSize : ℚ) : AllocResult :=
  let lookupTable? : Option (ℕ → Option (List (String × ℚ))) :=
    if strategy = "Ultra Aggressive" then some ultraAggressiveLookup
    else if strategy = "Aggressive" then some aggressiveLookup
    else if strategy = "Moderate" then some moderateLookup
    else if strategy = "Conservative" then some conservativeLookup
    else none
  match lookupTable? with
  | none => .err "Invalid strategy"
  | some lookupTable =>
    if portfolioSize ≤ 1 then
      calculateAllocation strategy portfolioSize
    else if strategy = "Conservative" ∧ portfolioSize ≤ 2 then
      calculateAllocation strategy portfolioSize
    else
      let rangeKey := findRangeKey portfolioSize
      match lookupTable rangeKey with
      | some baseAllocation =>
        if strategy = "Aggressive" ∧ 2 < portfolioSize ∧ portfolioSize ≤ 5 then
          calculateAllocation strategy portfolioSize
        else
          .alloc (baseAllocation.map fun p => (p.1, p.2 * (portfolioSize / (rangeKey : ℚ))))
            portfolioSize
      | none => calculateAllocation strategy portfolioSize

/-- The function `getPortfolioAllocation(strategy, portfolioSize)` from allocation.js
lines 730–734: delegates to `getPredefinedAllocation`. -/
def getPortfolioAllocation (strategy : String) (portfolioSize : ℚ) : AllocResult :=
  getPredefinedAllocation strategy portfolioSize

example : getPortfolioAllocation "Conservative" 2 =
    .alloc [("Equity Mutual Funds", 4/5), ("Debt Mutual Funds", 3/5), ("Direct Debt", 3/5)] 2 := by
  norm_num +decide [getPortfolioAllocation, getPredefinedAllocation, calculateAllocation]

example : getPortfolioAllocation "Aggressive" 3 =
    .alloc [("Equity AIF", 2), ("Equity PMS", 1), ("Equity Mutual Funds", 75/100),
            ("Debt Mutual Funds", 1/2), ("Direct Debt", 75/100)] 3 := by
  norm_num +decide [getPortfolioAllocation, getPredefinedAllocation, calculateAllocation,
    findRangeKey, aggressiveLookup]

example : sumVals (allocEntries (getPortfolioAllocation "Aggressive" 3)) = 5 := by
  norm_num +decide [getPortfolioAllocation, getPredefinedAllocation, calculateAllocation,
    findRangeKey, aggressiveLookup, sumVals, allocEntries]

/-!
## Risk scorer (`src/modules/risk.js`)

The client profile nesting (`riskTolerance`, `investmentObjectives`,
`knowledgeAndExperience`, `personalInfo`) is flattened into one structure;
only the fields read by `calculateRiskScore` appear.  `age` is the numeric
age (given directly, or the whole-year value derived from the birth date by
`calculateAgeFromDOB` — any such value lands in one of the same three bands).
A `maxAcceptableLoss` that is absent behaves in JavaScript like a value for
which every `<=` comparison is false, i.e. like the final else branch, which
the model reaches with any value above 25.
-/

/-- Questionnaire fields read by `calculateRiskScore` (risk.js lines 40–171). -/
structure ClientProfile where
  marketDropReaction : String
  maxAcceptableLoss : ℚ
  returnsVsStabilityPreference : String
  preferredPortfolioStyle : String
  investmentHorizon : String
  /-- Field `knowledgeAndExperience.investmentKnowledge`; `none` models a missing
  `knowledgeAndExperience` section. -/
  investmentKnowledge : Option String
  age : ℚ
deriving DecidableEq, Repr

/-- Market drop reaction points, risk.js lines 47–65 (default 3). -/
def marketDropPoints (r : String) : ℤ :=
  if r = "sell_all" then 1
  else if r = "sell_some" then 2
  else if r = "do_nothing" then 3
  else if r = "buy_some" then 4
  else if r = "buy_more" then 5
  else 3

/-- Maximum acceptable loss points, risk.js lines 68–78. -/
def maxLossPoints (l : ℚ) : ℤ :=
  if l ≤ 5 then 1
  else if l ≤ 10 then 2
  else if l ≤ 15 then 3
  else if l ≤ 25 then 4
  else 5

/-- Returns-vs-stability preference points, risk.js lines 81–99 (default 3). -/
def returnsVsStabilityPoints (r : String) : ℤ :=
  if r = "stability" then 1
  else if r = "mostly_stability" then 2
  else if r = "balanced" then 3
  else if r = "mostly_returns" then 4
  else if r = "returns" then 5
  else 3

/-- Preferred portfolio style points, risk.js lines 102–120 (default 3). -/
def portfolioStylePoints (r : String) : ℤ :=
  if r = "conservative" then 1
  else if r = "moderately_conservative" then 2
  else if r = "balanced" then 3
  else if r = "moderately_aggressive" then 4
  else if r = "aggressive" then 5
  else 3

/-- Investment horizon points, risk.js lines 124–136 (default 2). -/
def horizonPoints (r : String) : ℤ :=
  if r = "short_term" then 1
  else if r = "medium_term" then 2
  else if r = "long_term" then 3
  else 2

/-- Investment knowledge points, risk.js lines 140–156 (default 1, also when
the whole `knowledgeAndExperience` section is missing). -/
def knowledgePoints (k : Option String) : ℤ :=
  match k with
  | none => 1
  | some r =>
    if r = "beginner" then 1
    else if r = "intermediate" then 2
    else if r = "advanced" then 3
    else 1

/-- Age points, risk.js lines 162–168. -/
def agePoints (a : ℚ) : ℤ :=
  if 60 ≤ a then 1
  else if 40 ≤ a then 2
  else 3

/-- The function `calculateRiskScore(clientProfile)`, risk.js lines 40–171: the sum of the
seven component scores. -/
def calculateRiskScore (p : ClientProfile) : ℤ :=
  marketDropPoints p.marketDropReaction
    + maxLossPoints p.maxAcceptableLoss
    + returnsVsStabilityPoints p.returnsVsStabilityPreference
    + portfolioStylePoints p.preferredPortfolioStyle
    + horizonPoints p.investmentHorizon
    + knowledgePoints p.investmentKnowledge
    + agePoints p.age

/-- The function `determineRiskCategory(riskScore)`, risk.js lines 202–212. -/
def determineRiskCategory (riskScore : ℤ) : String :=
  if riskScore ≤ 12 then "Conservative"
  else if riskScore ≤ 17 then "Moderate"
  else if riskScore ≤ 22 then "Aggressive"
  else "Ultra-Aggressive"

/-- Position of a category in the order
Conservative < Moderate < Aggressive < Ultra-Aggressive. -/
def categoryRank (c : String) : ℕ :=
  if c = "Conservative" then 0
  else if c = "Moderate" then 1
  else if c = "Aggressive" then 2
  else 3

/-!
### `assessRiskFromAllocation` (risk.js lines 335–407)

Both branches end with
`generateRiskAssessmentDetailsFromAllocation(equity, debt, goldSilver, riskCategory)`
(lines 361 and 394).  The identifier `goldSilver` is declared nowhere in the
module (nor assigned anywhere in the repository), so evaluating the argument
list raises `ReferenceError: goldSilver is not defined`; the surrounding
`try`/`catch` catches it and rethrows `Error assessing risk from allocation: …`.
The embedding keeps the category/score computation that precedes the raise and
models the function's observable outcome as a `JsOutcome`.
-/

/-- Outcome of calling a JavaScript function: a returned value or a thrown
error message. -/
inductive JsOutcome (α : Type) where
  | ok (value : α)
  | thrown (message : String)
deriving DecidableEq, Repr

/-- The two accepted shapes of the manual-allocation input: an object carrying
an `assetClassAllocation` field, or the legacy flat `{equity, debt}` shape
(missing percentage fields default to 0, hence plain rationals). -/
inductive ManualAllocationInput where
  | structured (equity debt : ℚ)
  | legacy (equity debt : ℚ)
deriving DecidableEq, Repr

/-- Risk profile fields computed by `assessRiskFromAllocation` before the
details call. -/
structure ManualRiskProfile where
  riskScore : ℤ
  riskCategory : String
deriving DecidableEq, Repr

/-- Category/score breakpoints of the `assetClassAllocation` branch,
risk.js lines 349–358. -/
def manualCategoryStructured (equity : ℚ) : ManualRiskProfile :=
  if 70 ≤ equity then ⟨22, "Aggressive"⟩
  else if 50 ≤ equity then ⟨18, "Moderate"⟩
  else ⟨12, "Conservative"⟩

/-- Category/score breakpoints of the legacy flat branch,
risk.js lines 379–391. -/
def manualCategoryLegacy (equity : ℚ) : ManualRiskProfile :=
  if 80 ≤ equity then ⟨24, "Ultra-Aggressive"⟩
  else if 65 ≤ equity then ⟨20, "Aggressive"⟩
  else if 45 ≤ equity then ⟨15, "Moderate"⟩
  else ⟨10, "Conservative"⟩

/-- The function `assessRiskFromAllocation(assetAllocation)`, risk.js lines 335–407.  After
computing the category and score, both branches evaluate the undeclared
identifier `goldSilver` while building the argument list of the details call,
so the function throws on every input. -/
def assessRiskFromAllocation (input : ManualAllocationInput) : JsOutcome ManualRiskProfile :=
  match input with
  | .structured equity _debt =>
    let _profile := manualCategoryStructured equity
    -- line 361: `generateRiskAssessmentDetailsFromAllocation(equity, debt, goldSilver, riskCategory)`
    -- reads the undeclared `goldSilver`: ReferenceError, caught and rethrown (lines 403–406)
    .thrown "Error assessing risk from allocation: goldSilver is not defined"
  | .legacy equity _debt =>
    let _profile := manualCategoryLegacy equity
    -- line 394: same undeclared identifier on the legacy path
    .thrown "Error assessing risk from allocation: goldSilver is not defined"

/-!
## Product-type view (`generateProductTypeAllocation`, allocation.js 742–810)

The `equity` and `debt` objects of the product-type allocation are modelled as
(key, value) lists with JavaScript property-assignment semantics (`objSet`
replaces the value of an existing key, else appends).  The `goldSilver` field
of an asset-class allocation is never read by this function, so the structure
carries only `equity` and `debt`.
-/

/-- Asset-class percentages (the `goldSilver` field, 0 on every path that has
one, is not read by the functions modelled here). -/
structure AssetClassAlloc where
  equity : ℚ
  debt : ℚ
deriving DecidableEq, Repr

/-- The function `generateAssetClassAllocation(riskCategory, portfolioSize)`, allocation.js
lines 346–412.  The `switch` inside the `portfolioSize <= 1` block has no
default, so an unknown category falls through to the bottom `switch`. -/
def generateAssetClassAllocation (riskCategory : String) (portfolioSize : ℚ) :
    AssetClassAlloc :=
  if portfolioSize ≤ 1 ∧ riskCategory = "Ultra Aggressive" then ⟨100, 0⟩
  else if portfolioSize ≤ 1 ∧ riskCategory = "Aggressive" then ⟨75, 25⟩
  else if portfolioSize ≤ 1 ∧ riskCategory = "Moderate" then ⟨60, 40⟩
  else if portfolioSize ≤ 1 ∧ riskCategory = "Conservative" then ⟨40, 60⟩
  else if riskCategory = "Conservative" ∧ portfolioSize ≤ 2 then ⟨40, 60⟩
  else if riskCategory = "Ultra Aggressive" then ⟨90, 10⟩
  else if riskCategory = "Aggressive" then ⟨80, 20⟩
  else if riskCategory = "Moderate" then ⟨60, 40⟩
  else if riskCategory = "Conservative" then ⟨40, 60⟩
  else ⟨60, 40⟩

/-- JavaScript object property assignment `obj[key] = value` on a keyed list:
replace the value if the key exists, else append the pair. -/
def objSet (obj : List (String × ℤ)) (key : String) (value : ℤ) : List (String × ℤ) :=
  if obj.any (fun p => p.1 = key) then
    obj.map (fun p => if p.1 = key then (key, value) else p)
  else obj ++ [(key, value)]

/-- Whether `pat` occurs at the start of `s` (on character lists). -/
def charPrefixAt : List Char → List Char → Bool
  | [], _ => true
  | _ :: _, [] => false
  | a :: as, b :: bs => a == b && charPrefixAt as bs

/-- Whether `pat` occurs anywhere in `s` (on character lists). -/
def charListContains (pat : List Char) : List Char → Bool
  | [] => charPrefixAt pat []
  | c :: rest => charPrefixAt pat (c :: rest) || charListContains pat rest

/-- JavaScript `String.prototype.includes`. -/
def strContains (s pat : String) : Bool := charListContains pat.toList s.toList

/-- A vehicle amount as a rounded percentage of the portfolio total,
allocation.js line 766. -/
def pctOfTotal (totalSize value : ℚ) : ℤ := jsRound (value / totalSize * 100)

/-- The Large/Mid/Small-cap sub-buckets written for an `Equity Mutual Funds`
percentage, allocation.js lines 772–774. -/
def emfSplit (percentage : ℤ) : List (String × ℤ) :=
  [("Large Cap", jsRound ((percentage : ℚ) * (4/10))),
   ("Mid Cap", jsRound ((percentage : ℚ) * (3/10))),
   ("Small Cap", jsRound ((percentage : ℚ) * (3/10)))]

/-- One iteration of the `Object.entries(detailedAllocation)` loop,
allocation.js lines 762–792, acting on the (equity, debt) object pair.
The `equityTotal`/`debtTotal` accumulators of the source are never read
after the loop, so they are not carried. -/
def addDetailEntry (totalSize : ℚ) (acc : List (String × ℤ) × List (String × ℤ))
    (entry : String × ℚ) : List (String × ℤ) × List (String × ℤ) :=
  let key := entry.1
  let percentage := pctOfTotal totalSize entry.2
  if strContains key "Equity" then
    if key = "Equity Mutual Funds" then
      ((emfSplit percentage).foldl (fun o p => objSet o p.1 p.2) acc.1, acc.2)
    else if key = "Equity PMS" then
      (objSet acc.1 "PMS" percentage, acc.2)
    else if key = "Equity AIF" then
      (objSet acc.1 "AIF" percentage, acc.2)
    else acc
  else if strContains key "Debt" then
    if key = "Debt Mutual Funds" then
      (acc.1, objSet (objSet acc.2 "Government Bonds" (jsRound ((percentage : ℚ) * (1/2))))
        "Corporate Bonds" (jsRound ((percentage : ℚ) * (1/2))))
    else if key = "Direct Debt" then
      (acc.1, objSet acc.2 "Fixed Deposits" percentage)
    else if key = "Debt AIF" then
      (acc.1, objSet acc.2 "Structured Products" percentage)
    else acc
  else acc

/-- The mapping loop of `generateProductTypeAllocation` over the non-`Total`,
non-`error` entries of the detailed allocation. -/
def buildProductTypeBuckets (totalSize : ℚ) (entries : List (String × ℚ)) :
    List (String × ℤ) × List (String × ℤ) :=
  entries.foldl (addDetailEntry totalSize) ([], [])

/-- Sum of the values of a product-type object (`Object.values(...).reduce`). -/
def sumZVals (obj : List (String × ℤ)) : ℤ := (obj.map Prod.snd).sum

/-- The function `adjustProductTypes(productTypes, targetPercentage)`, allocation.js lines
795–803: rescale every value by `targetPercentage / currentTotal` with
`Math.round`, unless the current total is zero. -/
def adjustProductTypes (productTypes : List (String × ℤ)) (targetPercentage : ℚ) :
    List (String × ℤ) :=
  let currentTotal := sumZVals productTypes
  if currentTotal = 0 then productTypes
  else productTypes.map
    (fun p => (p.1, jsRound ((p.2 : ℚ) * (targetPercentage / (currentTotal : ℚ)))))

/-- The function `generateProductTypeAllocation(detailedAllocation, assetClassAllocation)`,
allocation.js lines 742–810.  `totalSize` is `detailedAllocation.Total || 0`;
a non-positive total short-circuits to the empty view. -/
def generateProductTypeAllocation (detailedAllocation : AllocResult)
    (assetClassAllocation : AssetClassAlloc) :
    List (String × ℤ) × List (String × ℤ) :=
  let totalSize : ℚ := match detailedAllocation with
    | .alloc _ t => t
    | .err _ => 0
  if totalSize ≤ 0 then ([], [])
  else
    let buckets := buildProductTypeBuckets totalSize (allocEntries detailedAllocation)
    (adjustProductTypes buckets.1 assetClassAllocation.equity,
     adjustProductTypes buckets.2 assetClassAllocation.debt)

/-!
## Recommendation gating (`src/modules/products.js`)

`generateEquityRecommendations` (lines 240–411) and
`generateDebtRecommendations` (lines 420–603) are modelled for the structure
of their output objects: which recommendation keys exist and with which
`allocation`/`amount` numbers.  The `products` arrays (fetched from the
external source with static-catalog fallback) affect neither key presence nor
the numbers, except for `unlistedStocks`, whose entry appears only when the
external fetch succeeds with a non-empty list — that outcome is passed in as
`unlistedFetch` (`none` = fetch threw, `some n` = `n` products returned).
The `riskLevel` argument selects only catalog contents, so it is not a
parameter of the model.
-/

/-- One recommendation entry: its `allocation` percentage and `amount`
(`none` where the source object carries no `amount` field). -/
structure RecEntry where
  allocation : ℚ
  amount : Option ℚ
deriving DecidableEq, Repr

/-- The equity product-type percentages read by the recommender (fields absent
in JavaScript behave in every `> 0` gate like 0). -/
structure EquityProductTypes where
  mutualFunds : ℚ
  pms : ℚ
  aif : ℚ
  unlistedStocks : ℚ
deriving DecidableEq, Repr

/-- The debt product-type percentages read by the recommender. -/
structure DebtProductTypes where
  mutualFunds : ℚ
  direct : ℚ
  aif : ℚ
deriving DecidableEq, Repr

/-- The slice of the `assetAllocation` argument read by the recommenders. -/
structure RecInput where
  assetClassAllocation : Option AssetClassAlloc
  equityProductTypes : Option EquityProductTypes
  debtProductTypes : Option DebtProductTypes
deriving DecidableEq, Repr

/-- Keys of the equity recommendations object. -/
structure EquityRecommendations where
  mutualFunds : Option RecEntry
  pms : Option RecEntry
  aif : Option RecEntry
  unlistedStocks : Option RecEntry
  etf : Option RecEntry
deriving DecidableEq, Repr

/-- Keys of the debt recommendations object. -/
structure DebtRecommendations where
  mutualFunds : Option RecEntry
  direct : Option RecEntry
  aif : Option RecEntry
deriving DecidableEq, Repr

/-- The function `generateEquityRecommendations(riskLevel, assetAllocation, portfolioSize)`,
products.js lines 240–411.  `portfolioSize` is in INR. -/
def generateEquityRecommendations (input : RecInput) (portfolioSize : ℚ)
    (unlistedFetch : Option ℕ) : EquityRecommendations :=
  match input.assetClassAllocation with
  | none =>
    -- line 253: early return with a catalog mutual-funds object (no amount field)
    ⟨some ⟨100, none⟩, none, none, none, none⟩
  | some ac =>
    match input.equityProductTypes with
    | none =>
      -- lines 259–290: default 80/20 mutual funds + ETF
      let equityAmount := portfolioSize * ac.equity / 100
      ⟨some ⟨80, some (equityAmount * 80 / 100)⟩, none, none, none,
       some ⟨20, some (equityAmount * 20 / 100)⟩⟩
    | some pt =>
      let equityAmount := portfolioSize * ac.equity / 100
      let mutualFunds :=
        if 0 < pt.mutualFunds then
          some (⟨pt.mutualFunds, some (equityAmount * pt.mutualFunds / 100)⟩ : RecEntry)
        else none
      -- line 309: PMS gate, 50 lakh minimum
      let pms :=
        if 0 < pt.pms ∧ 5000000 ≤ portfolioSize then
          some (⟨pt.pms, some (equityAmount * pt.pms / 100)⟩ : RecEntry)
        else none
      -- line 338: AIF gate, 1 crore minimum
      let aif :=
        if 0 < pt.aif ∧ 10000000 ≤ portfolioSize then
          some (⟨pt.aif, some (equityAmount * pt.aif / 100)⟩ : RecEntry)
        else none
      -- lines 367–389: unlisted stocks, 1 crore minimum, kept only when the
      -- fetch returns a non-empty list (a thrown fetch is caught and skipped)
      let unlistedStocks :=
        if 10000000 ≤ portfolioSize ∧ 0 < pt.unlistedStocks then
          match unlistedFetch with
          | some n =>
            if 0 < n then
              some (⟨pt.unlistedStocks, some (equityAmount * pt.unlistedStocks / 100)⟩ : RecEntry)
            else none
          | none => none
        else none
      -- lines 392–398: default when mutual funds, PMS and AIF are all absent
      if mutualFunds = none ∧ pms = none ∧ aif = none then
        ⟨some ⟨100, some equityAmount⟩, pms, aif, unlistedStocks, none⟩
      else
        ⟨mutualFunds, pms, aif, unlistedStocks, none⟩

/-- The function `generateDebtRecommendations(riskLevel, assetAllocation, portfolioSize)`,
products.js lines 420–603. -/
def generateDebtRecommendations (input : RecInput) (portfolioSize : ℚ) :
    DebtRecommendations :=
  match input.assetClassAllocation with
  | none =>
    -- line 433: early return with a catalog mutual-funds object
    ⟨some ⟨100, none⟩, none, none⟩
  | some ac =>
    match input.debtProductTypes with
    | none =>
      -- lines 439–494: default 70/30 mutual funds + direct
      let debtAmount := portfolioSize * ac.debt / 100
      ⟨some ⟨70, some (debtAmount * 70 / 100)⟩, some ⟨30, some (debtAmount * 30 / 100)⟩, none⟩
    | some pt =>
      let debtAmount := portfolioSize * ac.debt / 100
      let mutualFunds :=
        if 0 < pt.mutualFunds then
          some (⟨pt.mutualFunds, some (debtAmount * pt.mutualFunds / 100)⟩ : RecEntry)
        else none
      let direct :=
        if 0 < pt.direct then
          some (⟨pt.direct, some (debtAmount * pt.direct / 100)⟩ : RecEntry)
        else none
      -- line 549: debt AIF gate, 5 crore minimum
      let aif :=
        if 0 < pt.aif ∧ 50000000 ≤ portfolioSize then
          some (⟨pt.aif, some (debtAmount * pt.aif / 100)⟩ : RecEntry)
        else none
      -- lines 559–590: default when all three are absent
      if mutualFunds = none ∧ direct = none ∧ aif = none then
        ⟨some ⟨100, some debtAmount⟩, direct, aif⟩
      else
        ⟨mutualFunds, direct, aif⟩

example : strContains "Equity AIF" "Equity" = true := by decide
example : strContains "Direct Debt" "Equity" = false := by decide
example : strContains "Direct Debt" "Debt" = true := by decide
example : jsRound (21/2 : ℚ) = 11 := by norm_num [jsRound]
example : jsRound (35 : ℚ) = 35 := by norm_num [jsRound]
example :
    sumZVals (generateProductTypeAllocation (getPortfolioAllocation "Moderate" 3)
      (generateAssetClassAllocation "Moderate" 3)).1 = 61 := by
  norm_num +decide [getPortfolioAllocation, getPredefinedAllocation, calculateAllocation,
    findRangeKey, moderateLookup, generateAssetClassAllocation, generateProductTypeAllocation,
    buildProductTypeBuckets, addDetailEntry, allocEntries, pctOfTotal, jsRound, emfSplit,
    strContains, charListContains, charPrefixAt, objSet, adjustProductTypes, sumZVals]

/-!
## Claim theorems
-/

/-- C3 (code bug evidence): `assessRiskFromAllocation` throws on every input,
for both input shapes, because both branches evaluate the undeclared
identifier `goldSilver`; it never returns a risk profile. -/
theorem claim_C3_assess_risk_always_throws (input : ManualAllocationInput) :
    assessRiskFromAllocation input =
      .thrown "Error assessing risk from allocation: goldSilver is not defined" := by
  cases input <;> rfl

/-- Bounds of the market-drop component. -/
theorem marketDropPoints_bounds (r : String) :
    1 ≤ marketDropPoints r ∧ marketDropPoints r ≤ 5 := by
  unfold marketDropPoints; split_ifs <;> omega

/-- Bounds of the maximum-acceptable-loss component. -/
theorem maxLossPoints_bounds (l : ℚ) : 1 ≤ maxLossPoints l ∧ maxLossPoints l ≤ 5 := by
  unfold maxLossPoints; split_ifs <;> omega

/-- Bounds of the returns-vs-stability component. -/
theorem returnsVsStabilityPoints_bounds (r : String) :
    1 ≤ returnsVsStabilityPoints r ∧ returnsVsStabilityPoints r ≤ 5 := by
  unfold returnsVsStabilityPoints; split_ifs <;> omega

/-- Bounds of the portfolio-style component. -/
theorem portfolioStylePoints_bounds (r : String) :
    1 ≤ portfolioStylePoints r ∧ portfolioStylePoints r ≤ 5 := by
  unfold portfolioStylePoints; split_ifs <;> omega

/-- Bounds of the investment-horizon component. -/
theorem horizonPoints_bounds (r : String) : 1 ≤ horizonPoints r ∧ horizonPoints r ≤ 3 := by
  unfold horizonPoints; split_ifs <;> omega

/-- Bounds of the knowledge component. -/
theorem knowledgePoints_bounds (k : Option String) :
    1 ≤ knowledgePoints k ∧ knowledgePoints k ≤ 3 := by
  cases k <;> simp only [knowledgePoints] <;> omega

/-- Bounds of the age component. -/
theorem agePoints_bounds (a : ℚ) : 1 ≤ agePoints a ∧ agePoints a ≤ 3 := by
  unfold agePoints; split_ifs <;> omega

/-- C4 counterexample: the all-lowest questionnaire (sell everything on a
drop, at most 5% acceptable loss, full stability preference, conservative
style, short-term horizon, beginner knowledge, age 60) scores 7, which is
outside the claimed range [8, 28]. -/
theorem claim_C4_counterexample :
    calculateRiskScore ⟨"sell_all", 5, "stability", "conservative", "short_term",
      some "beginner", 60⟩ = 7 ∧
    ¬ (8 ≤ calculateRiskScore ⟨"sell_all", 5, "stability", "conservative", "short_term",
      some "beginner", 60⟩) := by
  have h : calculateRiskScore ⟨"sell_all", 5, "stability", "conservative", "short_term",
      some "beginner", 60⟩ = 7 := by
    norm_num +decide [calculateRiskScore, marketDropPoints, maxLossPoints,
      returnsVsStabilityPoints, portfolioStylePoints, horizonPoints, knowledgePoints, agePoints]
  exact ⟨h, by omega⟩

/-- C4 (amended): `calculateRiskScore` always returns an integer in the range
[7, 29] — four components contribute 1–5 points and three contribute 1–3
points, for every questionnaire input including missing or unrecognized
fields, which take the documented defaults. -/
theorem claim_C4_amended_score_range (p : ClientProfile) :
    7 ≤ calculateRiskScore p ∧ calculateRiskScore p ≤ 29 := by
  have h1 := marketDropPoints_bounds p.marketDropReaction
  have h2 := maxLossPoints_bounds p.maxAcceptableLoss
  have h3 := returnsVsStabilityPoints_bounds p.returnsVsStabilityPreference
  have h4 := portfolioStylePoints_bounds p.preferredPortfolioStyle
  have h5 := horizonPoints_bounds p.investmentHorizon
  have h6 := knowledgePoints_bounds p.investmentKnowledge
  have h7 := agePoints_bounds p.age
  unfold calculateRiskScore
  omega

/-- The rank of the category of a score, as a step function of the score. -/
theorem categoryRank_determineRiskCategory (s : ℤ) :
    categoryRank (determineRiskCategory s) =
      if s ≤ 12 then 0 else if s ≤ 17 then 1 else if s ≤ 22 then 2 else 3 := by
  by_cases h1 : s ≤ 12
  · simp +decide [determineRiskCategory, categoryRank, h1]
  · by_cases h2 : s ≤ 17
    · simp +decide [determineRiskCategory, categoryRank, h1, h2]
    · by_cases h3 : s ≤ 22
      · simp +decide [determineRiskCategory, categoryRank, h1, h2, h3]
      · simp +decide [determineRiskCategory, categoryRank, h1, h2, h3]

/-- C5: `determineRiskCategory` maps every integer score to exactly one of the
four categories, with the fixed thresholds (≤ 12 Conservative, 13–17 Moderate,
18–22 Aggressive, ≥ 23 Ultra-Aggressive), and in the order Conservative <
Moderate < Aggressive < Ultra-Aggressive it is a monotone non-decreasing step
function of the score. -/
theorem claim_C5_category_thresholds_monotone (s t : ℤ) :
    (determineRiskCategory s = "Conservative" ↔ s ≤ 12) ∧
    (determineRiskCategory s = "Moderate" ↔ 13 ≤ s ∧ s ≤ 17) ∧
    (determineRiskCategory s = "Aggressive" ↔ 18 ≤ s ∧ s ≤ 22) ∧
    (determineRiskCategory s = "Ultra-Aggressive" ↔ 23 ≤ s) ∧
    (s ≤ t → categoryRank (determineRiskCategory s) ≤ categoryRank (determineRiskCategory t)) := by
  refine ⟨?_, ?_, ?_, ?_, fun hst => ?_⟩ <;>
    [skip; skip; skip; skip;
     (rw [categoryRank_determineRiskCategory, categoryRank_determineRiskCategory];
      split_ifs <;> omega)] <;>
  · unfold determineRiskCategory
    split_ifs <;> simp +decide <;> omega

/-- C5 witness: the theorem instantiated at the boundary scores 12 and 13. -/
theorem claim_C5_witness :
    (determineRiskCategory 12 = "Conservative" ↔ (12 : ℤ) ≤ 12) ∧
    (determineRiskCategory 12 = "Moderate" ↔ (13 : ℤ) ≤ 12 ∧ (12 : ℤ) ≤ 17) ∧
    (determineRiskCategory 12 = "Aggressive" ↔ (18 : ℤ) ≤ 12 ∧ (12 : ℤ) ≤ 22) ∧
    (determineRiskCategory 12 = "Ultra-Aggressive" ↔ (23 : ℤ) ≤ 12) ∧
    ((12 : ℤ) ≤ 13 → categoryRank (determineRiskCategory 12) ≤ categoryRank (determineRiskCategory 13)) :=
  claim_C5_category_thresholds_monotone 12 13

/-- C6: for every strategy string other than the four recognized categories
and every portfolio size, `getPredefinedAllocation` returns the
`{error: "Invalid strategy"}` sentinel (which carries no `Total` key), and
`calculateAllocation` the equivalent
`{error: "Invalid strategy or portfolio size"}` sentinel; neither throws
(both are total functions). -/
theorem claim_C6_invalid_strategy_sentinel (strategy : String) (portfolioSize : ℚ)
    (h1 : strategy ≠ "Ultra Aggressive") (h2 : strategy ≠ "Aggressive")
    (h3 : strategy ≠ "Moderate") (h4 : strategy ≠ "Conservative") :
    getPredefinedAllocation strategy portfolioSize = .err "Invalid strategy" ∧
    calculateAllocation strategy portfolioSize = .err "Invalid strategy or portfolio size" := by
  constructor
  · unfold getPredefinedAllocation
    simp [h1, h2, h3, h4]
  · unfold calculateAllocation
    simp [h1, h2, h3, h4]

/-- C6 witness: the unrecognized strategy "Balanced" at 10 crores. -/
theorem claim_C6_witness :
    getPredefinedAllocation "Balanced" 10 = .err "Invalid strategy" ∧
    calculateAllocation "Balanced" 10 = .err "Invalid strategy or portfolio size" :=
  claim_C6_invalid_strategy_sentinel "Balanced" 10 (by decide) (by decide) (by decide) (by decide)

/-- C7: `('Conservative', 2)` takes the dedicated ≤ 2-crore special case
(0.8 / 0.6 / 0.6 with `Total` 2), while `('Conservative', 2.01)` takes the
general checkpoint path: the 5-crore Conservative row with every vehicle
amount scaled by 2.01/5. -/
theorem claim_C7_conservative_boundary :
    getPortfolioAllocation "Conservative" 2 =
      .alloc [("Equity Mutual Funds", 4/5), ("Debt Mutual Funds", 3/5), ("Direct Debt", 3/5)] 2 ∧
    getPortfolioAllocation "Conservative" (201/100) =
      .alloc [("Equity AIF", 0), ("Equity PMS", 201/1000), ("Equity Mutual Funds", 603/1000),
              ("Debt AIF", 0), ("Debt Mutual Funds", 603/1000), ("Direct Debt", 603/1000)]
        (201/100) := by
  constructor <;>
    norm_num +decide [getPortfolioAllocation, getPredefinedAllocation, calculateAllocation,
      findRangeKey, conservativeLookup]

/-- C10: every score ≥ 23 is categorized as the hyphenated
"Ultra-Aggressive", which the allocation engine's dispatch (which only knows
"Ultra Aggressive" with a space) rejects: composing the scorer with the
engine yields the `{error: "Invalid strategy"}` sentinel from
`getPortfolioAllocation` (and the small-portfolio sentinel from
`calculateAllocation`) at every portfolio size, never a detailed
allocation. -/
theorem claim_C10_ultra_aggressive_mismatch (s : ℤ) (size : ℚ) (h : 23 ≤ s) :
    determineRiskCategory s = "Ultra-Aggressive" ∧
    getPortfolioAllocation (determineRiskCategory s) size = .err "Invalid strategy" ∧
    calculateAllocation (determineRiskCategory s) size =
      .err "Invalid strategy or portfolio size" := by
  have hcat : determineRiskCategory s = "Ultra-Aggressive" := by
    unfold determineRiskCategory
    split_ifs <;> first | rfl | omega
  refine ⟨hcat, ?_, ?_⟩
  · rw [hcat]
    unfold getPortfolioAllocation getPredefinedAllocation
    simp +decide
  · rw [hcat]
    unfold calculateAllocation
    simp +decide

/-- C1 counterexample: at ("Aggressive", 3) the engine returns a non-error
allocation whose vehicle amounts sum to 5 crores against a portfolio size of
3 crores — an error of 2 crores, far beyond the 0.01% tolerance — so the sum
invariant does not hold for every non-error (category, size) pair. -/
theorem claim_C1_counterexample :
    isError (getPortfolioAllocation "Aggressive" 3) = false ∧
    sumVals (allocEntries (getPortfolioAllocation "Aggressive" 3)) = 5 ∧
    ¬ |sumVals (allocEntries (getPortfolioAllocation "Aggressive" 3)) - 3| < (1/10000) * 3 := by
  refine ⟨?_, ?_, ?_⟩ <;>
    norm_num +decide [getPortfolioAllocation, getPredefinedAllocation, calculateAllocation,
      findRangeKey, aggressiveLookup, isError, allocEntries, sumVals]

/-- Scaling a (key, value) list multiplies its value sum by the factor. -/
theorem sumVals_map_mul (base : List (String × ℚ)) (c : ℚ) :
    sumVals (base.map fun p => (p.1, p.2 * c)) = sumVals base * c := by
  induction base with
  | nil => simp [sumVals]
  | cons a t ih =>
    simp only [List.map_cons, sumVals, List.sum_cons] at ih ⊢
    rw [ih]
    ring

set_option maxHeartbeats 1600000 in
/-- C1 (amended): for every recognized risk category and every portfolio
size, the engine returns a non-error allocation whose vehicle amounts sum
exactly to the portfolio size — except in the Aggressive fixed-value band
2 < size < 5, where the amounts always sum to 5 crores regardless of size
(at size 5 exactly the fixed values do sum to the size). -/
theorem claim_C1_amended_sum_invariant (strategy : String) (s : ℚ)
    (hvalid : strategy = "Ultra Aggressive" ∨ strategy = "Aggressive" ∨
      strategy = "Moderate" ∨ strategy = "Conservative")
    (hexc : ¬ (strategy = "Aggressive" ∧ 2 < s ∧ s < 5)) :
    isError (getPortfolioAllocation strategy s) = false ∧
    sumVals (allocEntries (getPortfolioAllocation strategy s)) = s := by
  rcases hvalid with h | h | h | h <;> subst h
  · unfold getPortfolioAllocation getPredefinedAllocation calculateAllocation findRangeKey
    norm_num +decide [isError, allocEntries, sumVals, ultraAggressiveLookup]
    split_ifs <;> norm_num [isError, allocEntries, sumVals, ultraAggressiveLookup] <;> ring
  · have hexc' : 2 < s → 5 ≤ s := by
      intro hs
      by_contra hlt
      exact hexc ⟨rfl, hs, not_le.mp hlt⟩
    by_cases h1 : s ≤ 1
    · norm_num +decide [getPortfolioAllocation, getPredefinedAllocation, calculateAllocation,
        h1, isError, allocEntries, sumVals]
      ring
    · by_cases h2 : s ≤ 2
      · have h2' : ¬ 2 < s := not_lt.mpr h2
        norm_num +decide [getPortfolioAllocation, getPredefinedAllocation, calculateAllocation,
          findRangeKey, aggressiveLookup, h1, h2, h2', isError, allocEntries, sumVals]
        ring
      · by_cases h3 : s ≤ 5
        · have h5 : s = 5 := le_antisymm h3 (hexc' (not_le.mp h2))
          subst h5
          norm_num +decide [getPortfolioAllocation, getPredefinedAllocation, calculateAllocation,
            findRangeKey, aggressiveLookup, isError, allocEntries, sumVals]
        · by_cases h4 : s ≤ 10
          · norm_num +decide [getPortfolioAllocation, getPredefinedAllocation,
              calculateAllocation, findRangeKey, aggressiveLookup, h1, h2, h3, h4,
              isError, allocEntries, sumVals]
            ring
          · by_cases h5 : s ≤ 15
            · norm_num +decide [getPortfolioAllocation, getPredefinedAllocation,
                calculateAllocation, findRangeKey, aggressiveLookup, h1, h2, h3, h4, h5,
                isError, allocEntries, sumVals]
              ring
            · by_cases h6 : s ≤ 20
              · norm_num +decide [getPortfolioAllocation, getPredefinedAllocation,
                  calculateAllocation, findRangeKey, aggressiveLookup, h1, h2, h3, h4, h5, h6,
                  isError, allocEntries, sumVals]
                ring
              · by_cases h7 : s ≤ 25
                · norm_num +decide [getPortfolioAllocation, getPredefinedAllocation,
                    calculateAllocation, findRangeKey, aggressiveLookup, h1, h2, h3, h4, h5,
                    h6, h7, isError, allocEntries, sumVals]
                  ring
                · norm_num +decide [getPortfolioAllocation, getPredefinedAllocation,
                    calculateAllocation, findRangeKey, aggressiveLookup, h1, h2, h3, h4, h5,
                    h6, h7, isError, allocEntries, sumVals]
                  ring
  · unfold getPortfolioAllocation getPredefinedAllocation calculateAllocation findRangeKey
    norm_num +decide [isError, allocEntries, sumVals, moderateLookup]
    split_ifs <;> norm_num [isError, allocEntries, sumVals, moderateLookup] <;> ring
  · unfold getPortfolioAllocation getPredefinedAllocation calculateAllocation findRangeKey
    norm_num +decide [isError, allocEntries, sumVals, conservativeLookup]
    split_ifs <;> norm_num [isError, allocEntries, sumVals, conservativeLookup] <;> ring

/-- C1 witness: the amended invariant instantiated at ("Moderate", 7). -/
theorem claim_C1_witness :
    isError (getPortfolioAllocation "Moderate" 7) = false ∧
    sumVals (allocEntries (getPortfolioAllocation "Moderate" 7)) = 7 :=
  claim_C1_amended_sum_invariant "Moderate" 7 (Or.inr (Or.inr (Or.inl rfl)))
    (by rintro ⟨h, -⟩; exact absurd h (by decide))

/-- C2: for every portfolio size s with 2 < s ≤ 5 crores, the allocation
engine on "Aggressive" returns the fixed absolute amounts
{Equity AIF 2, Equity PMS 1, Equity Mutual Funds 0.75, Debt Mutual Funds 0.5,
Direct Debt 0.75} with `Total = s` — the entries do not depend on s, so there
is no proportional scaling within the band. -/
theorem claim_C2_aggressive_band_fixed (s : ℚ) (h1 : 2 < s) (h2 : s ≤ 5) :
    getPortfolioAllocation "Aggressive" s =
      .alloc [("Equity AIF", 2), ("Equity PMS", 1), ("Equity Mutual Funds", 75/100),
              ("Debt Mutual Funds", 1/2), ("Direct Debt", 75/100)] s := by
  have hs1 : ¬ s ≤ 1 := by linarith
  have hs2 : ¬ s ≤ 2 := by linarith
  norm_num +decide [getPortfolioAllocation, getPredefinedAllocation, calculateAllocation,
    findRangeKey, aggressiveLookup, hs1, hs2, h1, h2]

/-- C2 witness: the theorem instantiated at s = 3. -/
theorem claim_C2_witness :
    getPortfolioAllocation "Aggressive" 3 =
      .alloc [("Equity AIF", 2), ("Equity PMS", 1), ("Equity Mutual Funds", 75/100),
              ("Debt Mutual Funds", 1/2), ("Direct Debt", 75/100)] 3 :=
  claim_C2_aggressive_band_fixed 3 (by norm_num) (by norm_num)

/-- C9: below 5,000,000 INR the equity recommendations contain no `pms` entry
even when the PMS product-type percentage is nonzero; likewise an equity `aif`
entry requires portfolio size ≥ 10,000,000 INR and a debt `aif` entry requires
≥ 50,000,000 INR. -/
theorem claim_C9_minimum_ticket_gates (input : RecInput) (portfolioSize : ℚ)
    (unlistedFetch : Option ℕ) :
    (portfolioSize < 5000000 →
      (generateEquityRecommendations input portfolioSize unlistedFetch).pms = none) ∧
    (portfolioSize < 10000000 →
      (generateEquityRecommendations input portfolioSize unlistedFetch).aif = none) ∧
    (portfolioSize < 50000000 →
      (generateDebtRecommendations input portfolioSize).aif = none) := by
  obtain ⟨ac, ept, dpt⟩ := input
  refine ⟨fun hpms => ?_, fun haif => ?_, fun hdaif => ?_⟩
  · cases ac with
    | none => rfl
    | some a =>
      cases ept with
      | none => rfl
      | some pt =>
        simp only [generateEquityRecommendations]
        have : ¬ (0 < pt.pms ∧ 5000000 ≤ portfolioSize) := by
          rintro ⟨-, hge⟩; linarith
        split_ifs <;> simp_all
  · cases ac with
    | none => rfl
    | some a =>
      cases ept with
      | none => rfl
      | some pt =>
        simp only [generateEquityRecommendations]
        have : ¬ (0 < pt.aif ∧ 10000000 ≤ portfolioSize) := by
          rintro ⟨-, hge⟩; linarith
        split_ifs <;> simp_all
  · cases ac with
    | none => rfl
    | some a =>
      cases dpt with
      | none => rfl
      | some pt =>
        simp only [generateDebtRecommendations]
        have : ¬ (0 < pt.aif ∧ 50000000 ≤ portfolioSize) := by
          rintro ⟨-, hge⟩; linarith
        split_ifs <;> simp_all

/-- C9 witness: at 4,000,000 INR with nonzero PMS and AIF product-type
percentages, no `pms` or `aif` entry appears in the equity recommendations
and no `aif` entry in the debt recommendations. -/
theorem claim_C9_witness :
    (generateEquityRecommendations ⟨some ⟨80, 20⟩, some ⟨40, 30, 30, 0⟩, some ⟨50, 30, 20⟩⟩
      4000000 none).pms = none ∧
    (generateEquityRecommendations ⟨some ⟨80, 20⟩, some ⟨40, 30, 30, 0⟩, some ⟨50, 30, 20⟩⟩
      4000000 none).aif = none ∧
    (generateDebtRecommendations ⟨some ⟨80, 20⟩, some ⟨40, 30, 30, 0⟩, some ⟨50, 30, 20⟩⟩
      4000000).aif = none :=
  ⟨(claim_C9_minimum_ticket_gates ⟨some ⟨80, 20⟩, some ⟨40, 30, 30, 0⟩, some ⟨50, 30, 20⟩⟩
      4000000 none).1 (by norm_num),
   (claim_C9_minimum_ticket_gates ⟨some ⟨80, 20⟩, some ⟨40, 30, 30, 0⟩, some ⟨50, 30, 20⟩⟩
      4000000 none).2.1 (by norm_num),
   (claim_C9_minimum_ticket_gates ⟨some ⟨80, 20⟩, some ⟨40, 30, 30, 0⟩, some ⟨50, 30, 20⟩⟩
      4000000 none).2.2 (by norm_num)⟩

/-- C8 counterexample: for the engine's own detailed allocation at
("Moderate", 3 crore) and its asset-class split (equity 60%), the corrected
equity sub-bucket percentages sum to 61, not 60 — `Math.round` in the
correction pass breaks exactness. -/
theorem claim_C8_counterexample :
    (generateAssetClassAllocation "Moderate" 3).equity = 60 ∧
    sumZVals (generateProductTypeAllocation (getPortfolioAllocation "Moderate" 3)
      (generateAssetClassAllocation "Moderate" 3)).1 = 61 ∧
    ((sumZVals (generateProductTypeAllocation (getPortfolioAllocation "Moderate" 3)
        (generateAssetClassAllocation "Moderate" 3)).1 : ℚ) ≠
      (generateAssetClassAllocation "Moderate" 3).equity) := by
  have h1 : (generateAssetClassAllocation "Moderate" 3).equity = 60 := by
    norm_num +decide [generateAssetClassAllocation]
  have h2 : sumZVals (generateProductTypeAllocation (getPortfolioAllocation "Moderate" 3)
      (generateAssetClassAllocation "Moderate" 3)).1 = 61 := by
    norm_num +decide [getPortfolioAllocation, getPredefinedAllocation, calculateAllocation,
      findRangeKey, moderateLookup, generateAssetClassAllocation, generateProductTypeAllocation,
      buildProductTypeBuckets, addDetailEntry, allocEntries, pctOfTotal, jsRound, emfSplit,
      strContains, charListContains, charPrefixAt, objSet, adjustProductTypes, sumZVals]
  refine ⟨h1, h2, ?_⟩
  rw [h1, h2]
  norm_num

/-- The value `jsRound x` is within half of `x`. -/
theorem abs_jsRound_sub_le (x : ℚ) : |(jsRound x : ℚ) - x| ≤ 1/2 := by
  rw [abs_le]
  constructor
  · have h := Int.lt_floor_add_one (x + 1/2)
    simp only [jsRound]
    linarith
  · have h := Int.floor_le (x + 1/2)
    simp only [jsRound]
    linarith

/-- Rounding each scaled element of an integer list moves the sum away from
the exactly scaled sum by at most half a unit per element. -/
theorem sum_map_jsRound_bound (l : List ℤ) (f : ℚ) :
    |(l.map fun (v : ℤ) => (jsRound ((v : ℚ) * f) : ℚ)).sum
        - (l.map fun (v : ℤ) => (v : ℚ)).sum * f| ≤ l.length / 2 := by
  induction l with
  | nil => simp
  | cons a t ih =>
    simp only [List.map_cons, List.sum_cons, List.length_cons]
    push_cast
    have h1 := abs_jsRound_sub_le ((a : ℚ) * f)
    calc |(jsRound ((a : ℚ) * f) : ℚ)
            + (t.map fun (v : ℤ) => (jsRound ((v : ℚ) * f) : ℚ)).sum
            - ((a : ℚ) + (t.map fun (v : ℤ) => (v : ℚ)).sum) * f|
        = |((jsRound ((a : ℚ) * f) : ℚ) - (a : ℚ) * f)
            + ((t.map fun (v : ℤ) => (jsRound ((v : ℚ) * f) : ℚ)).sum
              - (t.map fun (v : ℤ) => (v : ℚ)).sum * f)| := by congr 1; ring
      _ ≤ |(jsRound ((a : ℚ) * f) : ℚ) - (a : ℚ) * f|
            + |(t.map fun (v : ℤ) => (jsRound ((v : ℚ) * f) : ℚ)).sum
              - (t.map fun (v : ℤ) => (v : ℚ)).sum * f| := abs_add _ _
      _ ≤ 1/2 + t.length / 2 := add_le_add h1 ih
      _ = (t.length + 1) / 2 := by ring

/-- The correction pass lands within half a point per sub-bucket of the
target percentage whenever the pre-correction sum is nonzero. -/
theorem adjustProductTypes_sum_bound (obj : List (String × ℤ)) (target : ℚ)
    (h : sumZVals obj ≠ 0) :
    |(sumZVals (adjustProductTypes obj target) : ℚ) - target| ≤ obj.length / 2 := by
  simp only [adjustProductTypes, if_neg h]
  have hcast : (sumZVals (obj.map fun p =>
        (p.1, jsRound ((p.2 : ℚ) * (target / (sumZVals obj : ℚ))))) : ℚ)
      = ((obj.map Prod.snd).map
          fun (v : ℤ) => (jsRound ((v : ℚ) * (target / (sumZVals obj : ℚ))) : ℚ)).sum := by
    unfold sumZVals
    rw [Int.cast_list_sum]
    simp only [List.map_map]
    rfl
  rw [hcast]
  have hb := sum_map_jsRound_bound (obj.map Prod.snd) (target / (sumZVals obj : ℚ))
  rw [List.length_map] at hb
  have hs : ((obj.map Prod.snd).map fun (v : ℤ) => (v : ℚ)).sum = ((sumZVals obj : ℤ) : ℚ) := by
    unfold sumZVals
    rw [Int.cast_list_sum]
  have hne : ((sumZVals obj : ℤ) : ℚ) ≠ 0 := Int.cast_ne_zero.mpr h
  have htarget : ((sumZVals obj : ℤ) : ℚ) * (target / ((sumZVals obj : ℤ) : ℚ)) = target := by
    field_simp
  rw [hs, htarget] at hb
  exact hb

/-- C8 (amended): the product-type view splits the Equity Mutual Funds
percentage p into Large/Mid/Small-cap sub-buckets at the fixed 40/30/30
ratios with `Math.round` (each bucket within 1/2 of its exact share), and the
correction pass rescales the sub-buckets of each asset class toward that
class's top-level percentage with `Math.round`, so their sum matches the
target only up to half a point per sub-bucket — not exactly in general. -/
theorem claim_C8_amended_product_type_reconciliation :
    (∀ p : ℤ, ∃ lc mc sc : ℤ,
        emfSplit p = [("Large Cap", lc), ("Mid Cap", mc), ("Small Cap", sc)] ∧
        |(lc : ℚ) - (p : ℚ) * (4/10)| ≤ 1/2 ∧
        |(mc : ℚ) - (p : ℚ) * (3/10)| ≤ 1/2 ∧
        |(sc : ℚ) - (p : ℚ) * (3/10)| ≤ 1/2) ∧
    (∀ (entries : List (String × ℚ)) (total : ℚ) (ac : AssetClassAlloc),
      0 < total →
      (sumZVals (buildProductTypeBuckets total entries).1 ≠ 0 →
        |(sumZVals (generateProductTypeAllocation (.alloc entries total) ac).1 : ℚ) - ac.equity|
          ≤ (buildProductTypeBuckets total entries).1.length / 2) ∧
      (sumZVals (buildProductTypeBuckets total entries).2 ≠ 0 →
        |(sumZVals (generateProductTypeAllocation (.alloc entries total) ac).2 : ℚ) - ac.debt|
          ≤ (buildProductTypeBuckets total entries).2.length / 2)) := by
  constructor
  · intro p
    exact ⟨_, _, _, rfl, abs_jsRound_sub_le _, abs_jsRound_sub_le _, abs_jsRound_sub_le _⟩
  · intro entries total ac htot
    have hne : ¬ total ≤ 0 := not_le.mpr htot
    constructor <;> intro h
    · simp only [generateProductTypeAllocation, allocEntries, if_neg hne]
      exact adjustProductTypes_sum_bound _ _ h
    · simp only [generateProductTypeAllocation, allocEntries, if_neg hne]
      exact adjustProductTypes_sum_bound _ _ h

/-- C8 witness: the amended bound instantiated at the detailed allocation
{Equity PMS: 1, Total: 2} with a 50/50 asset-class split. -/
theorem claim_C8_witness :
    |(sumZVals (generateProductTypeAllocation (.alloc [("Equity PMS", 1)] 2) ⟨50, 50⟩).1 : ℚ)
        - (50 : ℚ)|
      ≤ (buildProductTypeBuckets 2 [("Equity PMS", 1)]).1.length / 2 :=
  (claim_C8_amended_product_type_reconciliation.2 [("Equity PMS", 1)] 2 ⟨50, 50⟩
    (by norm_num)).1 (by
      norm_num +decide [buildProductTypeBuckets, addDetailEntry, pctOfTotal, jsRound,
        strContains, charListContains, charPrefixAt, objSet, sumZVals, emfSplit])

/-- C10 witness: score 24, portfolio size 10 crores. -/
theorem claim_C10_witness :
    determineRiskCategory 24 = "Ultra-Aggressive" ∧
    getPortfolioAllocation (determineRiskCategory 24) 10 = .err "Invalid strategy" ∧
    calculateAllocation (determineRiskCategory 24) 10 =
      .err "Invalid strategy or portfolio size" :=
  claim_C10_ultra_aggressive_mismatch 24 10 (by omega)

end InvestmentProposal
